import Mathlib

/-!
Shallow embedding of the `to-orderly` schema/DDL core (`src/lib.rs`) together with the
serde deserialization behaviour it relies on, and theorems settling the spec claims.

Conventions:
* JSON values mirror `serde_json::Value`; JSON numbers mirror `serde_json::Number`'s
  internal representation (`PosInt(u64) | NegInt(i64) | Float(f64)`), with the float
  payload kept opaque (its textual mantissa) since only its kind ever matters here.
* Fallible deserialization is `Except DeError _`.
* DDL generation mirrors `table_create_statement` composed with
  `.to_string(PostgresQueryBuilder).to_lowercase()`, exactly as the repository's tests
  exercise it (`tests.rs`).
-/

namespace ToOrderly

/-- Model of `serde_json::Number`: a non-negative integer stored as `u64`
(`posInt`, invariantly `< 2^64`), a negative integer stored as `i64` (`negInt`),
or a double (`float`), whose payload we keep as its opaque source text because the
program never computes with it. -/
inductive JNumber where
  | posInt (n : Nat)
  | negInt (v : Int)
  | float (repr : String)
deriving DecidableEq, Repr

/-- Model of `serde_json::Number::is_i64`: true for `NegInt`, true for `PosInt`
not exceeding `i64::MAX = 2^63 - 1`, false for `Float`. -/
def JNumber.is_i64 : JNumber → Bool
  | .posInt n => n ≤ 9223372036854775807
  | .negInt _ => true
  | .float _ => false

/-- Model of `serde_json::Value`. Object entries are listed in the order the
deserializer iterates them (document order for text input; ascending key order
when iterating a materialized `Value` object, which is a `BTreeMap`). -/
inductive Json where
  | null
  | bool (b : Bool)
  | num (n : JNumber)
  | str (s : String)
  | arr (elems : List Json)
  | obj (entries : List (String × Json))

/-- The `Type` enum of `src/lib.rs` (`Type` itself is reserved in Lean). -/
inductive Type' where
  | Integer
  | Float
  | Text
  | Bool
deriving DecidableEq, Repr

/-- The `TypeErrors` enum of `src/lib.rs`. -/
inductive TypeErrors where
  | UnimplementedConversion
deriving DecidableEq, Repr

/-- Embedding of `impl TryFrom<&serde_json::Value> for Type` (`src/lib.rs:60-79`):
null/array/object fail; a number maps through `is_i64`; strings map to `Text`;
booleans map to `Bool`. -/
def Type'.try_from : Json → Except TypeErrors Type'
  | .null | .arr _ | .obj _ => .error .UnimplementedConversion
  | .num n => .ok (if n.is_i64 then .Integer else .Float)
  | .str _ => .ok .Text
  | .bool _ => .ok .Bool

/-- The `Field` struct of `src/lib.rs:83-89`. -/
structure Field where
  name : String
  field_type : Type'
  nullable : Bool
deriving DecidableEq, Repr

/-- The `impl PartialEq for Field` of `src/lib.rs:91-95`: equality by name only. -/
def Field.eqRust (a b : Field) : Bool :=
  a.name == b.name

/-- The `Schema` newtype of `src/lib.rs:153`: a vector of optional fields. -/
structure Schema where
  inner : List (Option Field)
deriving DecidableEq, Repr

/-- The `LiveSchema` newtype of `src/lib.rs:98`: a vector of optional
(field, sample value) pairs. -/
structure LiveSchema where
  inner : List (Option (Field × Json))

/-- Deserialization errors produced along the `Schema`/`LiveSchema` parse paths.
`DuplicateField` is the `serde::de::Error::duplicate_field("Duplicate Field")`
raised by `SchemaVisitor::visit_seq`; `UnimplementedConversion` is the
`invalid_type(Other("unimplemented conversion for given type"))` raised by
`LiveSchemaVisitor::visit_map`; `DuplicateKey`/`MissingField`/`InvalidType` are
the generic errors of the derived `Field` deserializer; `TrailingElements` is
serde_json's leftover-input error raised by the enclosing sequence deserializer
when the visitor returns without consuming every element. -/
inductive DeError where
  | DuplicateField
  | DuplicateKey (k : String)
  | MissingField (f : String)
  | InvalidType
  | UnimplementedConversion
  | TrailingElements
deriving DecidableEq, Repr

/-- Derived deserializer helper: expect a JSON string. -/
def parseString : Json → Except DeError String
  | .str s => .ok s
  | _ => .error .InvalidType

/-- Derived deserializer helper: expect a JSON boolean. -/
def parseBool : Json → Except DeError Bool
  | .bool b => .ok b
  | _ => .error .InvalidType

/-- Embedding of the serde-derived deserializer for `Type` with its
`#[serde(rename = ...)]` tags: one of the four literal strings. -/
def parseTypeTag : Json → Except DeError Type'
  | .str "integer" => .ok .Integer
  | .str "float" => .ok .Float
  | .str "text" => .ok .Text
  | .str "bool" => .ok .Bool
  | _ => .error .InvalidType

/-- Embedding of the serde-derived map visitor for `Field`: walk the object's
entries once, rejecting a repeated key, ignoring unknown keys, then require
`name` and `type` and default `nullable` to `false` (`#[serde(default)]`). -/
def Field.fromEntries :
    List (String × Json) → Option String → Option Type' → Option Bool → Except DeError Field
  | [], nameAcc, typeAcc, nullableAcc =>
    match nameAcc with
    | none => .error (.MissingField "name")
    | some n =>
      match typeAcc with
      | none => .error (.MissingField "type")
      | some t => .ok ⟨n, t, nullableAcc.getD false⟩
  | (k, v) :: rest, nameAcc, typeAcc, nullableAcc =>
    if k = "name" then
      match nameAcc with
      | some _ => .error (.DuplicateKey "name")
      | none =>
        match parseString v with
        | .error e => .error e
        | .ok s => Field.fromEntries rest (some s) typeAcc nullableAcc
    else if k = "type" then
      match typeAcc with
      | some _ => .error (.DuplicateKey "type")
      | none =>
        match parseTypeTag v with
        | .error e => .error e
        | .ok t => Field.fromEntries rest nameAcc (some t) nullableAcc
    else if k = "nullable" then
      match nullableAcc with
      | some _ => .error (.DuplicateKey "nullable")
      | none =>
        match parseBool v with
        | .error e => .error e
        | .ok b => Field.fromEntries rest nameAcc typeAcc (some b)
    else
      Field.fromEntries rest nameAcc typeAcc nullableAcc

/-- Embedding of the serde-derived `Deserialize` for `Field`: the input must be
an object; its entries drive `Field.fromEntries`. -/
def Field.deserialize : Json → Except DeError Field
  | .obj kvs => Field.fromEntries kvs none none none
  | _ => .error .InvalidType

/-- Embedding of the loop of `SchemaVisitor::visit_seq` (`src/lib.rs:221-239`).
The loop is `while let Ok(Some(entry)) = seq.next_element::<Field>()`, so an
element that fails to deserialize ends the loop (the error is discarded) and the
elements after it are left unconsumed — they are reported in the second
component. A name already in `existing` (a `BTreeSet<String>`, modelled as a
membership test on the list of recorded names) aborts with `DuplicateField`.
The write-back `schema.inner_mut().get(i).replace(&mut Some(entry))` in the
source calls `Option::replace` on the temporary `Option<&Option<Field>>` that
`slice::get` returns, so the schema vector itself is never modified; the
accumulator is therefore threaded through unchanged (and the source's `i`
counter has no observable effect). -/
def SchemaVisitor.loop (schema : Schema) (existing : List String) :
    List Json → Except DeError (Schema × Nat)
  | [] => .ok (schema, 0)
  | j :: rest =>
    match Field.deserialize j with
    | .error _ => .ok (schema, rest.length)
    | .ok entry =>
      if entry.name ∈ existing then
        .error .DuplicateField
      else
        SchemaVisitor.loop schema (entry.name :: existing) rest

/-- Embedding of `SchemaVisitor::visit_seq` itself: run the loop on an empty
`Schema::default()` with an empty seen-name set. -/
def SchemaVisitor.visit_seq (elems : List Json) : Except DeError (Schema × Nat) :=
  SchemaVisitor.loop ⟨[]⟩ [] elems

/-- Embedding of `impl Deserialize for Schema` run under serde_json: the array's
elements are fed to `SchemaVisitor::visit_seq`, and the enclosing deserializer
errors out if the visitor returned with elements still unconsumed (serde_json's
trailing-characters / fewer-elements check, identical in the `from_str` and
`from_value` entry points). -/
def Schema.deserialize (elems : List Json) : Except DeError Schema :=
  match SchemaVisitor.visit_seq elems with
  | .error e => .error e
  | .ok (schema, 0) => .ok schema
  | .ok (_, _ + 1) => .error .TrailingElements

/-- Embedding of `LiveSchemaVisitor::visit_map` (`src/lib.rs:252-277`): for each
entry, infer the type of the value via `Type::try_from`, mapping a conversion
failure to the visitor's `invalid_type` error (modelled as
`DeError.UnimplementedConversion`); on success record
`Some((Field { name: key, field_type, nullable: false }, value))` in order. -/
def LiveSchemaVisitor.visit_map : List (String × Json) → Except DeError LiveSchema
  | [] => .ok ⟨[]⟩
  | (key, value) :: rest =>
    match Type'.try_from value with
    | .error _ => .error .UnimplementedConversion
    | .ok t =>
      match LiveSchemaVisitor.visit_map rest with
      | .error e => .error e
      | .ok tail => .ok ⟨some (⟨key, t, false⟩, value) :: tail.inner⟩

/-- Embedding of `impl Deserialize for LiveSchema` run under serde_json: the
map's entries, in the order the deserializer iterates them (document order for
text input, as in the axum `Json<LiveSchema>` extractor; ascending key order for
a materialized `Value`), are fed to `LiveSchemaVisitor::visit_map`, whose loop
consumes every entry, so no trailing check is needed. -/
def LiveSchema.deserialize (entries : List (String × Json)) : Except DeError LiveSchema :=
  LiveSchemaVisitor.visit_map entries

/-- ASCII lower-casing of one character, as `str::to_lowercase` acts on the
ASCII identifier charset used by this program. -/
def lowerChar (c : Char) : Char :=
  if 65 ≤ c.toNat ∧ c.toNat ≤ 90 then Char.ofNat (c.toNat + 32) else c

/-- Model of `String::to_lowercase` as invoked by `IdenString::unquoted`
(`src/lib.rs:23-27`), restricted to ASCII input (Rust's Unicode lowering and
this map agree on ASCII identifiers). -/
def lowerString (s : String) : String :=
  ⟨s.data.map lowerChar⟩

/-- Rendering of an `IdenString` identifier under `PostgresQueryBuilder`:
`unquoted` writes the lower-cased name, and the builder wraps it in double
quotes. -/
def quoteIdent (name : String) : String :=
  "\"" ++ lowerString name ++ "\""

/-- The Postgres type keyword emitted for each `Type` variant by the
`ColumnDef` type setters chosen in `table_create_statement`
(`column.integer() / float() / text() / boolean()`), lower-cased as in the
repository's tests. -/
def sqlTypeName : Type' → String
  | .Integer => "integer"
  | .Float => "real"
  | .Text => "text"
  | .Bool => "bool"

/-- Everything after the quoted identifier in one declared column definition:
the mapped type keyword, then ` null` exactly when the field is nullable
(`entry.nullable().then(|| column.null())`). -/
def columnModifiers (f : Field) : String :=
  " " ++ sqlTypeName f.field_type ++ (if f.nullable then " null" else "")

/-- The modifiers of the implicit `id` column:
`ColumnDef::new(iden_str!("id")).integer().not_null().auto_increment().primary_key()`
renders under `PostgresQueryBuilder` as `serial not null primary key`
(Postgres expresses the auto-increment integer as `serial`). -/
def idColumnModifiers : String :=
  " serial not null primary key"

/-- One rendered column definition from its (lower-cased identifier, modifiers)
pair. -/
def renderColumnDef (c : String × String) : String :=
  "\"" ++ c.1 ++ "\"" ++ c.2

/-- The column definitions emitted by `Schema::table_create_statement`
(`src/lib.rs:167-196`), as (lower-cased identifier, modifiers) pairs:
every present (`Some`) field in order, then always the implicit `id` column
last. -/
def Schema.columnDefs (s : Schema) : List (String × String) :=
  (s.inner.filterMap id).map (fun f => (lowerString f.name, columnModifiers f))
    ++ [("id", idColumnModifiers)]

/-- Embedding of `Schema::table_create_statement` composed with
`.to_string(PostgresQueryBuilder).to_lowercase()` exactly as the repository's
tests exercise it (`tests.rs:73-105`). -/
def Schema.table_create_statement (s : Schema) (table_name : String) : String :=
  "create table " ++ quoteIdent table_name ++ " ( "
    ++ String.intercalate ", " (s.columnDefs.map renderColumnDef) ++ " )"

/-- The column definitions emitted by `LiveSchema::table_create_statement`
(`src/lib.rs:117-146`): identical to the declared-schema compiler except that
each entry carries an ignored sample value. -/
def LiveSchema.columnDefs (ls : LiveSchema) : List (String × String) :=
  (ls.inner.filterMap id).map (fun e => (lowerString e.1.name, columnModifiers e.1))
    ++ [("id", idColumnModifiers)]

/-- Embedding of `LiveSchema::table_create_statement` composed with
`.to_string(PostgresQueryBuilder).to_lowercase()` as in `tests.rs:147-175`. -/
def LiveSchema.table_create_statement (ls : LiveSchema) (table_name : String) : String :=
  "create table " ++ quoteIdent table_name ++ " ( "
    ++ String.intercalate ", " (ls.columnDefs.map renderColumnDef) ++ " )"

/-- The field sequence of a live schema with the sample values dropped. -/
def LiveSchema.fieldsOnly (ls : LiveSchema) : Schema :=
  ⟨ls.inner.map (Option.map Prod.fst)⟩

/-- Sanity check against the repository test `build_sql_from_schema`
(`tests.rs:73-105`). -/
example :
    Schema.table_create_statement
      ⟨[some ⟨"temperature", .Integer, true⟩, some ⟨"active", .Bool, true⟩]⟩ "test_t"
      = "create table \"test_t\" ( \"temperature\" integer null, \"active\" bool null, \"id\" serial not null primary key )" :=
  rfl

/-- Sanity check against the repository test `create_table_sql_from_live_json_schema`
(`tests.rs:147-175`); the `json!` object there is a `BTreeMap`, so the entries
reach the visitor in ascending key order. -/
example :
    (LiveSchema.deserialize
        [("device", .str "Tmp0233AO"), ("temperature", .num (.float "23.2"))]).map
      (fun ls => ls.table_create_statement "test_t")
      = .ok "create table \"test_t\" ( \"device\" text, \"temperature\" real, \"id\" serial not null primary key )" :=
  rfl

/-- Sanity check against the repository test `wont_serialize_repeated_fields`
(`tests.rs:6-22`). -/
example :
    Schema.deserialize
      [.obj [("name", .str "temperature"), ("type", .str "integer"), ("nullable", .bool true)],
       .obj [("name", .str "temperature"), ("type", .str "text"), ("nullable", .bool false)]]
      = .error .DuplicateField :=
  rfl

/-- Sanity check against the repository test `wont_serialize_null_fields_live_schema`
(`tests.rs:24-33`). -/
example :
    LiveSchema.deserialize [("device", .str "Tmp0233AO"), ("temperature", .null)]
      = .error .UnimplementedConversion :=
  rfl

/-- The JSON value kinds that `Type::try_from` cannot type: null, arrays and
objects. -/
def untypeable : Json → Bool
  | .null | .arr _ | .obj _ => true
  | _ => false

/-- Untypeable values make `Type::try_from` fail with `UnimplementedConversion`. -/
lemma try_from_of_untypeable {v : Json} (h : untypeable v = true) :
    Type'.try_from v = .error .UnimplementedConversion := by
  cases v with
  | null => rfl
  | bool b => simp [untypeable] at h
  | num n => simp [untypeable] at h
  | str s => simp [untypeable] at h
  | arr l => rfl
  | obj l => rfl

/-- Typeable values make `Type::try_from` succeed. -/
lemma try_from_of_typeable {v : Json} (h : ¬ untypeable v = true) :
    ∃ t, Type'.try_from v = .ok t := by
  cases v with
  | null => simp [untypeable] at h
  | bool b => exact ⟨.Bool, rfl⟩
  | num n => exact ⟨if n.is_i64 then .Integer else .Float, rfl⟩
  | str s => exact ⟨.Text, rfl⟩
  | arr l => simp [untypeable] at h
  | obj l => simp [untypeable] at h

/-- The names of the input declarations that deserialize successfully, in
order. When every declaration deserializes, these are exactly the declared
names in input order. -/
def parsedNames (elems : List Json) : List String :=
  elems.filterMap (fun j => (Field.deserialize j).toOption.map Field.name)

/-- If every element of the input deserializes to a `Field` and the declared
names (extended by the already-seen names) carry a repetition, the visitor loop
aborts with `DuplicateField`. -/
lemma loop_duplicate (elems : List Json) (schema : Schema) (existing : List String)
    (h1 : ∀ j ∈ elems, (Field.deserialize j).isOk = true)
    (hex : existing.Nodup)
    (h2 : ¬ (existing ++ parsedNames elems).Nodup) :
    SchemaVisitor.loop schema existing elems = .error .DuplicateField := by
  induction elems generalizing existing with
  | nil => exact absurd (by simpa [parsedNames] using hex) h2
  | cons j rest ih =>
    have hj := h1 j (List.Mem.head _)
    obtain ⟨f, hf⟩ : ∃ f, Field.deserialize j = .ok f := by
      cases hdes : Field.deserialize j with
      | ok f => exact ⟨f, rfl⟩
      | error e => rw [hdes] at hj; simp [Except.isOk, Except.toBool] at hj
    have hnames : parsedNames (j :: rest) = f.name :: parsedNames rest := by
      simp [parsedNames, hf, Except.toOption]
    by_cases hmem : f.name ∈ existing
    · simp [SchemaVisitor.loop, hf, hmem]
    · have hrest : ¬ ((f.name :: existing) ++ parsedNames rest).Nodup := by
        intro hnd
        exact h2 (by rw [hnames]; exact List.perm_middle.nodup_iff.mpr hnd)
      have hrec := ih (f.name :: existing) (fun x hx => h1 x (List.Mem.tail _ hx))
        (List.nodup_cons.mpr ⟨hmem, hex⟩) hrest
      simp [SchemaVisitor.loop, hf, hmem, hrec]

/-- Modelled from the spec's words: a numeric value "with no fractional
representation (integral)" — both integer-backed number representations are
integral; a float-backed one requires a fractional representation. -/
def JNumber.integral : JNumber → Bool
  | .posInt _ => true
  | .negInt _ => true
  | .float _ => false

/-- C1: deserializing a declared schema with pairwise-distinct names is claimed
to succeed with the fields preserved in order. The parse does succeed, but the
write-back in `SchemaVisitor::visit_seq` mutates a temporary
(`schema.inner_mut().get(i).replace(...)`), so the resulting schema is empty:
at the one-declaration input below, the output has zero fields instead of one. -/
theorem C1_parse_drops_fields :
    Schema.deserialize
        [.obj [("name", .str "temperature"), ("type", .str "integer"), ("nullable", .bool true)]]
        = .ok ⟨[]⟩
      ∧ (Schema.mk []).inner.length ≠ 1 :=
  ⟨rfl, by decide⟩

/-- C2 counterexample: compiling the one-field declared schema with table name
`test_t` does not produce the claimed string — the implicit `id` column is not
rendered with SQL type `integer`. -/
theorem C2_counterexample :
    Schema.table_create_statement ⟨[some ⟨"temperature", .Integer, true⟩]⟩ "test_t"
      ≠ "create table \"test_t\" ( \"temperature\" integer null, \"id\" integer not null primary key )" := by
  decide

/-- C2 amended: the schema value holding the declared field `temperature`
(integer, nullable) compiles with table name `test_t` to exactly
`create table "test_t" ( "temperature" integer null, "id" serial not null primary key )`:
the implicit `id` column is rendered with the Postgres auto-increment integer
type `serial`, with modifier `not null primary key`, and it is the last
column. -/
theorem C2_ddl_exact :
    Schema.table_create_statement ⟨[some ⟨"temperature", .Integer, true⟩]⟩ "test_t"
      = "create table \"test_t\" ( \"temperature\" integer null, \"id\" serial not null primary key )" :=
  rfl

/-- C3: a structurally invalid declaration is claimed always to fail the parse.
It does not: the visitor's `while let Ok(Some(entry))` discards the element
error, and with the invalid element last there is no unconsumed input left for
the enclosing deserializer to reject, so the parse silently succeeds (with an
empty schema) on an input whose only declaration is missing `type`. -/
theorem C3_malformed_silently_succeeds :
    Schema.deserialize [.obj [("name", .str "a")]] = .ok ⟨[]⟩ :=
  rfl

/-- C6 counterexample: the JSON number 9223372036854775808 = 2^63 (stored as a
`u64`) is integral — it has no fractional representation — yet type inference
returns `Float`, not `Integer`, because `Number::is_i64` is false above
`i64::MAX`. -/
theorem C6_counterexample :
    (JNumber.posInt 9223372036854775808).integral = true
      ∧ Type'.try_from (.num (.posInt 9223372036854775808)) = .ok .Float
      ∧ Type'.Float ≠ Type'.Integer :=
  ⟨rfl, rfl, by decide⟩

/-- C6 amended: type inference is a total function of the JSON value kind and
representation — a numeric value representable as a signed 64-bit integer
(`is_i64`: every negative integer, and every non-negative integer not exceeding
`i64::MAX`) infers to `Integer`, every other numeric value (all float-backed
values, and integral values above `i64::MAX`) infers to `Float`, every string
infers to `Text`, and every boolean infers to `Bool`; no key name is consulted. -/
theorem C6_inference_total :
    (∀ n : JNumber, Type'.try_from (.num n) = .ok (if n.is_i64 then .Integer else .Float))
      ∧ (∀ s : String, Type'.try_from (.str s) = .ok .Text)
      ∧ (∀ b : Bool, Type'.try_from (.bool b) = .ok .Bool) :=
  ⟨fun _ => rfl, fun _ => rfl, fun _ => rfl⟩

/-- C7: deserializing the live-schema sample
`{"temperature":23.2,"active":false,"device":"AmberRoomTemp"}` (its entries
reaching the visitor in document order, as with serde_json's text deserializer
used by the web layer) succeeds and yields exactly three (Field, value) pairs
typed `Float`, `Bool`, `Text`, each field paired with its original sample value
and `nullable = false`, in the key order temperature, active, device. -/
theorem C7_live_sample_exact :
    LiveSchema.deserialize
        [("temperature", .num (.float "23.2")),
         ("active", .bool false),
         ("device", .str "AmberRoomTemp")]
      = .ok ⟨[some (⟨"temperature", .Float, false⟩, .num (.float "23.2")),
              some (⟨"active", .Bool, false⟩, .bool false),
              some (⟨"device", .Text, false⟩, .str "AmberRoomTemp")]⟩ :=
  rfl

/-- C10 counterexample: at the canonical input with names `Temp` and `temp`
(distinct case-sensitively, identical after lower-casing) the parse does
succeed, but it produces the empty schema — the visitor drops every field — so
the DDL compiled from the parse result contains no `temp` column at all, let
alone two colliding ones. -/
theorem C10_counterexample :
    Schema.deserialize
        [.obj [("name", .str "Temp"), ("type", .str "integer")],
         .obj [("name", .str "temp"), ("type", .str "integer")]]
        = .ok ⟨[]⟩
      ∧ ((Schema.mk []).columnDefs.map Prod.fst).count "temp" = 0 :=
  ⟨rfl, rfl⟩

/-- C10 amended: the declared input `[Temp, temp]` passes the case-sensitive
duplicate check and parses successfully; identifier quoting lower-cases names,
so `Temp` and `temp` render to the identical identifier; and a schema value
that actually holds both fields compiles to DDL with two column definitions
carrying the identical rendered identifier `temp` — but the parse result itself
is empty (the visitor drops its fields), so DDL compiled from a parse result
never exhibits the collision. -/
theorem C10_case_collision :
    (Schema.deserialize
        [.obj [("name", .str "Temp"), ("type", .str "integer")],
         .obj [("name", .str "temp"), ("type", .str "integer")]]).isOk = true
      ∧ quoteIdent "Temp" = quoteIdent "temp"
      ∧ ((Schema.mk [some ⟨"Temp", .Integer, false⟩, some ⟨"temp", .Integer, false⟩]).columnDefs.map
            Prod.fst).count "temp" = 2 :=
  ⟨rfl, rfl, rfl⟩

/-- C4: a declared-schema input whose declarations all deserialize (each entry
has a name, a type tag and an optional nullable flag) but whose names repeat —
case-sensitively, regardless of the repeated entries' types or nullable flags —
is rejected with the duplicate-field error and yields no schema value. -/
theorem C4_duplicate_rejected (elems : List Json)
    (h1 : ∀ j ∈ elems, (Field.deserialize j).isOk = true)
    (h2 : ¬ (parsedNames elems).Nodup) :
    Schema.deserialize elems = .error .DuplicateField := by
  have hloop := loop_duplicate elems ⟨[]⟩ [] h1 List.nodup_nil (by simpa using h2)
  simp [Schema.deserialize, SchemaVisitor.visit_seq, hloop]

/-- Witness for C4 at the input `[{name: temperature, type: integer, nullable: true},
{name: temperature, type: text}]`: both declarations deserialize, the name list
repeats, and the parse fails with `DuplicateField`. -/
theorem C4_witness :
    (∀ j ∈ ([.obj [("name", .str "temperature"), ("type", .str "integer"), ("nullable", .bool true)],
             .obj [("name", .str "temperature"), ("type", .str "text")]] : List Json),
        (Field.deserialize j).isOk = true)
      ∧ ¬ (parsedNames
            [.obj [("name", .str "temperature"), ("type", .str "integer"), ("nullable", .bool true)],
             .obj [("name", .str "temperature"), ("type", .str "text")]]).Nodup
      ∧ Schema.deserialize
            [.obj [("name", .str "temperature"), ("type", .str "integer"), ("nullable", .bool true)],
             .obj [("name", .str "temperature"), ("type", .str "text")]]
          = .error .DuplicateField := by
  refine ⟨?_, ?_, C4_duplicate_rejected _ ?_ ?_⟩ <;>
    first
      | · intro j hj
          rcases List.mem_cons.mp hj with rfl | hj2
          · rfl
          · rcases List.mem_cons.mp hj2 with rfl | hj3
            · rfl
            · cases hj3
      | · show ¬ (["temperature", "temperature"] : List String).Nodup
          decide

/-- C5: a live-schema sample containing at least one key mapped to null, an
array or an object fails deserialization with the unimplemented-conversion
typing error and produces no schema value. -/
theorem C5_untypeable_rejected (entries : List (String × Json))
    (h : ∃ kv ∈ entries, untypeable kv.2 = true) :
    LiveSchema.deserialize entries = .error .UnimplementedConversion := by
  induction entries with
  | nil => obtain ⟨kv, hmem, _⟩ := h; cases hmem
  | cons hd tl ih =>
    obtain ⟨kv, hmem, hkv⟩ := h
    obtain ⟨k, v⟩ := hd
    by_cases hv : untypeable v = true
    · have hconv := try_from_of_untypeable hv
      simp [LiveSchema.deserialize, LiveSchemaVisitor.visit_map, hconv]
    · obtain ⟨t, ht⟩ := try_from_of_typeable hv
      have htl : ∃ kv ∈ tl, untypeable kv.2 = true := by
        cases hmem with
        | head => exact absurd hkv hv
        | tail _ hmem2 => exact ⟨kv, hmem2, hkv⟩
      have hrec := ih htl
      simp only [LiveSchema.deserialize] at hrec
      simp [LiveSchema.deserialize, LiveSchemaVisitor.visit_map, ht, hrec]

/-- Witness for C5 at the sample `{temperature: null, device: "Tmp0233AO"}`. -/
theorem C5_witness :
    (∃ kv ∈ ([("temperature", .null), ("device", .str "Tmp0233AO")] : List (String × Json)),
        untypeable kv.2 = true)
      ∧ LiveSchema.deserialize [("temperature", .null), ("device", .str "Tmp0233AO")]
          = .error .UnimplementedConversion :=
  ⟨⟨("temperature", Json.null), List.Mem.head _, rfl⟩,
   C5_untypeable_rejected _ ⟨("temperature", Json.null), List.Mem.head _, rfl⟩⟩

/-- Dropping the sample values commutes with discarding the `None` slots. -/
lemma filterMap_strip (l : List (Option (Field × Json))) :
    (l.map (Option.map Prod.fst)).filterMap id = (l.filterMap id).map Prod.fst := by
  induction l with
  | nil => rfl
  | cons hd tl ih =>
    cases hd with
    | none => simpa using ih
    | some e => simpa using ih

/-- The live compiler's column definitions ignore the sample values: they agree
with the declared compiler's on the value-stripped field sequence. -/
lemma fieldsOnly_columnDefs (ls : LiveSchema) :
    ls.fieldsOnly.columnDefs = ls.columnDefs := by
  obtain ⟨l⟩ := ls
  simp only [LiveSchema.fieldsOnly, Schema.columnDefs, LiveSchema.columnDefs]
  rw [filterMap_strip, List.map_map]
  rfl

/-- C8: DDL compilation is a pure, deterministic function for both schema
representations — same schema value and table name always give the byte-equal
string (the embedding is a total `String`-valued function, so compilation never
raises an error) — and the live compiler's output coincides with the declared
compiler's on the value-stripped field sequence, so it depends only on the
schema shape. -/
theorem C8_deterministic (s : Schema) (ls : LiveSchema) (t : String) :
    s.table_create_statement t = s.table_create_statement t
      ∧ ls.table_create_statement t = ls.table_create_statement t
      ∧ ls.table_create_statement t = ls.fieldsOnly.table_create_statement t := by
  refine ⟨rfl, rfl, ?_⟩
  simp [LiveSchema.table_create_statement, Schema.table_create_statement, fieldsOnly_columnDefs]

/-- C9: whenever a schema value holds a field whose name lower-cases to `id`,
the emitted statement's column list carries the rendered identifier `id` at
least twice — the declared column and the unconditionally appended implicit
`id` column — with nothing detecting or preventing the collision. -/
theorem C9_duplicate_id_columns (s : Schema)
    (h : ∃ f : Field, some f ∈ s.inner ∧ lowerString f.name = "id") :
    2 ≤ (s.columnDefs.map Prod.fst).count "id" := by
  obtain ⟨f, hmem, hname⟩ := h
  have hmem2 : f ∈ s.inner.filterMap id := List.mem_filterMap.mpr ⟨some f, hmem, rfl⟩
  have hid : "id" ∈ (s.inner.filterMap id).map (fun g => lowerString g.name) :=
    List.mem_map.mpr ⟨f, hmem2, hname⟩
  have h1 : 0 < ((s.inner.filterMap id).map (fun g => lowerString g.name)).count "id" :=
    List.count_pos_iff.mpr hid
  have h2 : s.columnDefs.map Prod.fst
      = (s.inner.filterMap id).map (fun g => lowerString g.name) ++ ["id"] := by
    simp [Schema.columnDefs]
  rw [h2, List.count_append]
  have : (["id"] : List String).count "id" = 1 := rfl
  omega

/-- Witness for C9 at the schema holding the single declared field `ID`. -/
theorem C9_witness :
    (∃ f : Field, some f ∈ (Schema.mk [some ⟨"ID", .Integer, false⟩]).inner
        ∧ lowerString f.name = "id")
      ∧ 2 ≤ ((Schema.mk [some ⟨"ID", .Integer, false⟩]).columnDefs.map Prod.fst).count "id" :=
  ⟨⟨⟨"ID", .Integer, false⟩, List.Mem.head _, rfl⟩,
   C9_duplicate_id_columns _ ⟨⟨"ID", .Integer, false⟩, List.Mem.head _, rfl⟩⟩

end ToOrderly
